import Mathlib

/-!
Shallow embedding of the graph-preprocessing pipeline of the brain-age-gnn
repository (src/preprocess.py and src/similarity.py), together with proofs
of the specified properties.

A pandas `DataFrame` holding phenotype values is modelled by its ordered
subject index plus a total lookup `loc : subject → column-code → value`.
Phenotype values are modelled as strings, with the literal string "NaN"
playing the role of a missing value exactly as in the source, which
compares values against the string 'NaN'.  Similarity scores and feature
values are modelled over `ℚ` (the source uses Python ints/floats whose
values here are exact small rationals).
-/

namespace BrainAgeGNN

/-- Model of a pandas DataFrame: an ordered index of subject identifiers and
a total lookup from (subject, column code) to the stored string value. -/
structure DataFrame (I : Type) where
  index : List I
  loc : I → String → String

/-- Biobank column code for sex (preprocess.py, module constant SEX_UID). -/
def SEX_UID : String := "31-0.0"

/-- Biobank column code for age (preprocess.py, module constant AGE_UID). -/
def AGE_UID : String := "21003-2.0"

/-! ### similarity.py -/

/-- A phenotype feature as consumed by `custom_similarity_function`:
`Phenotype.get_biobank_codes(feature)` is modelled by the `codes` field and
the `feature == Phenotype.MENTAL_HEALTH.value` test by the `mentalHealth`
flag. -/
structure Feature where
  mentalHealth : Bool
  codes : List String

/-- Model of the instance-resolution loop in `custom_similarity_function`:
`instance = biobank_feature[0]; for f in reversed(biobank_feature): if pred(f):
instance = f; break`.  It returns the first code of the reversed code list
satisfying `pred`, defaulting to the first declared code. -/
def findInstance (codes : List String) (pred : String → Bool) : String :=
  match codes.reverse.find? pred with
  | some c => c
  | none => codes.headD ""

/-- Per-feature indicator score accumulated into `total_score` by the loop
body of `custom_similarity_function.get_similarity` (similarity.py lines
40-63), including the inverted missingness test `not ... != 'NaN'` used for
`subject_j` in the source. -/
def feature_score {I : Type} (phenotypes : DataFrame I) (subject_i subject_j : I)
    (feature : Feature) : ℚ :=
  if feature.mentalHealth then
    if phenotypes.loc subject_i (feature.codes.headD "") =
        phenotypes.loc subject_j (feature.codes.headD "") then 1 else 0
  else if feature.codes.length > 1 then
    let instance_i := findInstance feature.codes
      (fun f => phenotypes.loc subject_i f != "NaN")
    let instance_j := findInstance feature.codes
      (fun f => !(phenotypes.loc subject_j f != "NaN"))
    if phenotypes.loc subject_i instance_i = phenotypes.loc subject_j instance_j
      then 1 else 0
  else
    if phenotypes.loc subject_i (feature.codes.headD "") =
        phenotypes.loc subject_j (feature.codes.headD "") then 1 else 0

/-- Model of the closure returned by `custom_similarity_function(feature_list)`
(similarity.py lines 34-64): 0 for an empty feature list, otherwise the sum of
the per-feature indicator scores divided by the number of features. -/
def custom_similarity_function {I : Type} (feature_list : List Feature)
    (phenotypes : DataFrame I) (subject_i subject_j : I) : ℚ :=
  if feature_list.length = 0 then 0
  else ((feature_list.map (feature_score phenotypes subject_i subject_j)).sum)
    / (feature_list.length : ℚ)

/-- Per-feature indicator score following the specification's words instead of
the source: the value of each of the two subjects is resolved independently by
the same rule, the last non-missing instance when scanning the declared codes
in reverse order.  Used to exhibit the divergence of the source from the
specified resolution rule. -/
def feature_score_specRule {I : Type} (phenotypes : DataFrame I)
    (subject_i subject_j : I) (feature : Feature) : ℚ :=
  if feature.mentalHealth then
    if phenotypes.loc subject_i (feature.codes.headD "") =
        phenotypes.loc subject_j (feature.codes.headD "") then 1 else 0
  else if feature.codes.length > 1 then
    let instance_i := findInstance feature.codes
      (fun f => phenotypes.loc subject_i f != "NaN")
    let instance_j := findInstance feature.codes
      (fun f => phenotypes.loc subject_j f != "NaN")
    if phenotypes.loc subject_i instance_i = phenotypes.loc subject_j instance_j
      then 1 else 0
  else
    if phenotypes.loc subject_i (feature.codes.headD "") =
        phenotypes.loc subject_j (feature.codes.headD "") then 1 else 0

/-! ### preprocess.py: similarity and edge construction -/

/-- Model of `get_similarity` (preprocess.py lines 96-108): indicator that the
two subjects have the same value in the SEX_UID column. -/
def get_similarity {I : Type} (phenotypes : DataFrame I)
    (subject_i subject_j : I) : ℚ :=
  if phenotypes.loc subject_i SEX_UID = phenotypes.loc subject_j SEX_UID
    then 1 else 0

/-- The ordered list of directed index pairs produced by the nested loops of
`construct_edge_list` (preprocess.py lines 125-134): the outer loop enumerates
positions `i`, the inner iterator skips the first `i + 1` positions, and each
pair whose similarity strictly exceeds the threshold contributes `(i, j)`
followed by `(j, i)`. -/
def edge_pairs {I : Type} [Inhabited I] (ids : List I) (sim : I → I → ℚ)
    (similarity_threshold : ℚ) : List (ℕ × ℕ) :=
  (List.range ids.length).flatMap (fun i =>
    ((List.range ids.length).drop (i + 1)).flatMap (fun j =>
      if sim (ids.getD i default) (ids.getD j default) > similarity_threshold
        then [(i, j), (j, i)] else []))

/-- Model of `construct_edge_list` (preprocess.py lines 111-136): the
coordinate-format pair `(v_list, w_list)`; `v_list` collects the first and
`w_list` the second component of each directed pair, in loop order. -/
def construct_edge_list {I : Type} [Inhabited I] (phenotypes : DataFrame I)
    (similarity_function : DataFrame I → I → I → ℚ)
    (similarity_threshold : ℚ) : List ℕ × List ℕ :=
  let pairs := edge_pairs phenotypes.index (similarity_function phenotypes)
    similarity_threshold
  (pairs.map Prod.fst, pairs.map Prod.snd)

/-! ### preprocess.py: subject splitting -/

/-- Model of `get_random_subject_split` (preprocess.py lines 139-154).  Numpy
sampling without replacement (`np.random.choice(pop, k, replace=False)`) is
abstracted by the function argument `choice pop k`; the properties numpy
guarantees for it (length `k`, no duplicates, drawn from `pop`) are hypotheses
of the theorems below.  `int(num_subjects * 0.85)` and
`int(num_subjects * 0.05)` are the floors `n * 85 / 100` and `n * 5 / 100`
(the fractional parts of `0.85 n` and `0.05 n` are multiples of 1/20, so
double rounding never crosses an integer for any feasible subject count).
The Python set differences are modelled by list filtering. -/
def get_random_subject_split (choice : List ℕ → ℕ → List ℕ)
    (num_subjects : ℕ) : List ℕ × List ℕ × List ℕ :=
  let num_train := num_subjects * 85 / 100
  let num_validate := num_subjects * 5 / 100
  let train_val_idx := choice (List.range num_subjects) (num_train + num_validate)
  let train_idx := choice train_val_idx num_train
  let validate_idx := train_val_idx.filter (fun x => decide (x ∉ train_idx))
  let test_idx := (List.range num_subjects).filter
    (fun x => decide (x ∉ train_val_idx))
  (train_idx, validate_idx, test_idx)

/-- Model of `get_subject_split_masks` (preprocess.py lines 172-184): three
boolean masks of length `len(train) + len(validate) + len(test)`, each True
exactly at the positions listed in the corresponding index set. -/
def get_subject_split_masks (train_index validate_index test_index : List ℕ) :
    List Bool × List Bool × List Bool :=
  let num_subjects := train_index.length + validate_index.length + test_index.length
  ((List.range num_subjects).map (fun i => decide (i ∈ train_index)),
   (List.range num_subjects).map (fun i => decide (i ∈ validate_index)),
   (List.range num_subjects).map (fun i => decide (i ∈ test_index)))

/-! ### preprocess.py: feature pipeline (scaling and PCA) -/

/-- Boolean-mask row selection, the meaning of `data[train_mask]` for a numpy
array or pandas DataFrame indexed by a boolean mask: keep exactly the rows at
positions where the mask is True. -/
def selectRows {α : Type} : List α → List Bool → List α
  | x :: xs, b :: bs => if b then x :: selectRows xs bs else selectRows xs bs
  | _, _ => []

/-- Arithmetic mean of a list of rationals (0 for the empty list, since the
rational `x / 0 = 0`). -/
def listMean (xs : List ℚ) : ℚ := xs.sum / (xs.length : ℚ)

/-- Population variance of a list of rationals, as computed by sklearn's
StandardScaler (ddof = 0). -/
def listVariance (xs : List ℚ) : ℚ :=
  ((xs.map (fun x => (x - listMean xs) ^ 2)).sum) / (xs.length : ℚ)

/-- Parameters fitted by `StandardScaler.fit` on a row-major matrix: the
per-column means and per-column population variances. -/
def standardScaler_fit (rows : List (List ℚ)) : List ℚ × List ℚ :=
  ((rows.transpose).map listMean, (rows.transpose).map listVariance)

/-- Scaler parameters fitted in `construct_population_graph` (preprocess.py
lines 251-254 and 257-260): `scaler.fit(data[train_mask])`, i.e. the standard
scaler fitted on the rows selected by the training mask only. -/
def block_scaler_fit (data : List (List ℚ)) (train_mask : List Bool) :
    List ℚ × List ℚ :=
  standardScaler_fit (selectRows data train_mask)

/-- PCA parameters fitted by `functional_connectivities_pca` (preprocess.py
lines 90-93): `connectivity_pca.fit(connectivities[train_idx])`.  The sklearn
fitting procedure itself is an external collaborator and is abstracted by the
argument `fit`; the embedding captures which rows it is given. -/
def pca_fitted_params {P : Type} (fit : List (List ℚ) → P)
    (connectivities : List (List ℚ)) (train_idx : List Bool) : P :=
  fit (selectRows connectivities train_idx)

/-- Model of `functional_connectivities_pca` (preprocess.py lines 90-93): fit
on the training rows, then transform every row. -/
def functional_connectivities_pca {P : Type} (fit : List (List ℚ) → P)
    (transform : P → List ℚ → List ℚ) (connectivities : List (List ℚ))
    (train_idx : List Bool) : List (List ℚ) :=
  connectivities.map (transform (pca_fitted_params fit connectivities train_idx))

/-! ### preprocess.py: subject selection and graph assembly -/

/-- Model of `get_subject_ids` (preprocess.py lines 39-60).  The stored array
`data/subject_ids.npy` is the argument `subject_ids`; `np.random.choice` is
abstracted by `choice`.  Python's falsiness test `if not num_subjects` is True
both for `None` and for `0`. -/
def get_subject_ids (subject_ids : List String)
    (choice : List String → ℕ → List String) (num_subjects : Option ℕ)
    (randomise : Bool) : List String :=
  match num_subjects with
  | none => subject_ids
  | some n =>
    if n = 0 then subject_ids
    else if randomise then choice subject_ids n
    else subject_ids.take n

/-- The population-graph record assembled by `construct_population_graph`
(preprocess.py lines 279-287): the torch-geometric `Data` object plus the
`validate_mask` attribute set afterwards. -/
structure PopulationGraph where
  x : List (List ℚ)
  edge_index : List ℕ × List ℕ
  y : List ℚ
  train_mask : List Bool
  validate_mask : List Bool
  test_mask : List Bool

/-- Model of the assembly step of `construct_population_graph` (preprocess.py
lines 262-292): the collected components are stored in the record exactly as
given; the source performs no dimensional-consistency check at this point. -/
def assemble_population_graph (feature_tensor : List (List ℚ))
    (edge_index : List ℕ × List ℕ) (label_tensor : List ℚ)
    (train_mask validate_mask test_mask : List Bool) : PopulationGraph :=
  { x := feature_tensor
    edge_index := edge_index
    y := label_tensor
    train_mask := train_mask
    validate_mask := validate_mask
    test_mask := test_mask }


/-! ### Concrete scenario data -/

/-- Two-attribute feature list member: the sex attribute with its single
biobank code. -/
def sexFeature : Feature := ⟨false, ["31-0.0"]⟩

/-- Two-attribute feature list member: the age-bracket attribute with its
single biobank code. -/
def ageFeature : Feature := ⟨false, ["21003-2.0"]⟩

/-- Phenotype table for the tie-break scenario: two subjects matching on sex
("M" = "M") but differing on the age bracket ("60" vs "70"). -/
def phenTie : DataFrame String :=
  ⟨["s1", "s2"],
   fun s c => if c = "31-0.0" then "M" else (if s = "s1" then "60" else "70")⟩

/-- Phenotype table for the four-subject sex scenario: subjects A, B, C are
"M" and subject D is "F". -/
def phenABCD : DataFrame String :=
  ⟨["A", "B", "C", "D"],
   fun s c => if c = SEX_UID then (if s = "D" then "F" else "M") else ""⟩

/-- Phenotype table for the determinism witness: constant sex value. -/
def phenDetA : DataFrame String := ⟨["x", "y"], fun _ _ => "M"⟩

/-- Phenotype table for the determinism witness: same index and same sex
values as `phenDetA`, but a different value in an unrelated column. -/
def phenDetB : DataFrame String :=
  ⟨["x", "y"], fun _ c => if c = "junk" then "Z" else "M"⟩

/-- Age attribute with two longitudinal biobank columns, the second being the
more recent instance. -/
def ageLongFeature : Feature := ⟨false, ["21003-0.0", "21003-2.0"]⟩

/-- Phenotype table exhibiting the inverted resolution condition: both
subjects have a non-missing recent value "M" in column 21003-2.0, and
differing older values "A"/"B" in column 21003-0.0. -/
def phenLong : DataFrame String :=
  ⟨["i", "j"],
   fun s c =>
     if c = "21003-0.0" then (if s = "i" then "A" else "B")
     else if c = "21003-2.0" then "M" else "NaN"⟩

/-! ### Helper lemmas -/

/-- Zipping the two coordinate lists of the edge list recovers the list of
directed pairs. -/
theorem zip_map_fst_snd {α β : Type} : ∀ (l : List (α × β)),
    (l.map Prod.fst).zip (l.map Prod.snd) = l := by
  intro l
  induction l with
  | nil => rfl
  | cons a t ih => simp [ih]

/-- Membership in the dropped range list used by the inner loop of
`construct_edge_list`. -/
theorem mem_drop_range {n k j : ℕ} :
    j ∈ (List.range n).drop k ↔ k ≤ j ∧ j < n := by
  simp only [List.mem_iff_getElem, List.getElem_drop, List.length_drop,
    List.length_range, List.getElem_range]
  constructor
  · rintro ⟨m, hm, rfl⟩
    omega
  · rintro ⟨h1, h2⟩
    exact ⟨j - k, by omega, by omega⟩

/-- Characterisation of the directed pairs produced by `edge_pairs`. -/
theorem mem_edge_pairs {I : Type} [Inhabited I] {ids : List I}
    {sim : I → I → ℚ} {θ : ℚ} {u v : ℕ} :
    (u, v) ∈ edge_pairs ids sim θ ↔
      (u < v ∧ v < ids.length ∧ θ < sim (ids.getD u default) (ids.getD v default)) ∨
      (v < u ∧ u < ids.length ∧ θ < sim (ids.getD v default) (ids.getD u default)) := by
  unfold edge_pairs
  simp only [List.mem_flatMap, List.mem_range, mem_drop_range]
  constructor
  · rintro ⟨i, hi, j, ⟨hij, hjn⟩, hmem⟩
    by_cases hc : sim (ids.getD i default) (ids.getD j default) > θ
    · rw [if_pos hc] at hmem
      simp only [List.mem_cons, List.not_mem_nil, or_false, Prod.mk.injEq] at hmem
      rcases hmem with ⟨rfl, rfl⟩ | ⟨rfl, rfl⟩
      · exact Or.inl ⟨by omega, hjn, hc⟩
      · exact Or.inr ⟨by omega, hjn, hc⟩
    · rw [if_neg hc] at hmem
      exact absurd hmem (List.not_mem_nil _)
  · rintro (⟨huv, hv, hc⟩ | ⟨hvu, hu, hc⟩)
    · exact ⟨u, by omega, v, ⟨by omega, hv⟩, by rw [if_pos hc]; simp⟩
    · exact ⟨v, by omega, u, ⟨by omega, hu⟩, by rw [if_pos hc]; simp⟩

/-- The zipped coordinate lists of `construct_edge_list` are exactly
`edge_pairs` over the subject index. -/
theorem zip_construct_edge_list {I : Type} [Inhabited I] (phen : DataFrame I)
    (sim : DataFrame I → I → I → ℚ) (θ : ℚ) :
    ((construct_edge_list phen sim θ).1).zip ((construct_edge_list phen sim θ).2)
      = edge_pairs phen.index (sim phen) θ := by
  simp only [construct_edge_list]
  exact zip_map_fst_snd _


/-! ### Claim theorems -/

/-- C2: edge creation uses a strict inequality.  A directed pair `(u, v)` is
present in the edge list returned by `construct_edge_list` if and only if the
similarity score of the corresponding subject pair (evaluated once, in index
order) strictly exceeds the threshold; in particular no edge is added when the
score equals the threshold.  For the weighted two-attribute similarity where
the subjects match on exactly one attribute the score is 1/2, and with
threshold 1/2 that pair produces no edge. -/
theorem c2_strict_threshold_edge_creation :
    (∀ (phen : DataFrame String) (sim : DataFrame String → String → String → ℚ)
      (θ : ℚ) (u v : ℕ),
      (u, v) ∈ ((construct_edge_list phen sim θ).1).zip
          ((construct_edge_list phen sim θ).2) ↔
        ((u < v ∧ v < phen.index.length ∧
            θ < sim phen (phen.index.getD u default) (phen.index.getD v default)) ∨
         (v < u ∧ u < phen.index.length ∧
            θ < sim phen (phen.index.getD v default) (phen.index.getD u default)))) ∧
    custom_similarity_function [sexFeature, ageFeature] phenTie "s1" "s2" = 1 / 2 ∧
    construct_edge_list phenTie
      (custom_similarity_function [sexFeature, ageFeature]) (1 / 2) = ([], []) := by
  refine ⟨fun phen sim θ u v => ?_, ?_, ?_⟩
  · rw [zip_construct_edge_list]
    exact mem_edge_pairs
  · simp [custom_similarity_function, feature_score, sexFeature, ageFeature,
      phenTie, findInstance]
  · simp [construct_edge_list, edge_pairs, custom_similarity_function,
      feature_score, sexFeature, ageFeature, phenTie, findInstance,
      List.range_succ]

/-- C3: every edge list returned by `construct_edge_list` is a pair of
equal-length index sequences; a directed pair `(u, v)` is present if and only
if `(v, u)` is present; and no pair has equal endpoints (no self-loops), for
every phenotype table, similarity function and threshold. -/
theorem c3_edge_list_symmetric_no_self_loops :
    ∀ (phen : DataFrame String) (sim : DataFrame String → String → String → ℚ)
      (θ : ℚ),
      (construct_edge_list phen sim θ).1.length
          = (construct_edge_list phen sim θ).2.length ∧
      (∀ u v : ℕ,
        (u, v) ∈ ((construct_edge_list phen sim θ).1).zip
            ((construct_edge_list phen sim θ).2) ↔
        (v, u) ∈ ((construct_edge_list phen sim θ).1).zip
            ((construct_edge_list phen sim θ).2)) ∧
      (∀ u : ℕ,
        (u, u) ∉ ((construct_edge_list phen sim θ).1).zip
            ((construct_edge_list phen sim θ).2)) := by
  intro phen sim θ
  refine ⟨?_, fun u v => ?_, fun u => ?_⟩
  · simp [construct_edge_list]
  · rw [zip_construct_edge_list, mem_edge_pairs, mem_edge_pairs]
    tauto
  · rw [zip_construct_edge_list, mem_edge_pairs]
    rintro (⟨h, -, -⟩ | ⟨h, -, -⟩) <;> omega

/-- C6: the weighted multi-attribute similarity invoked with an empty
attribute list returns exactly 0 for every phenotype table and every pair of
subjects; the division by the attribute count is never reached. -/
theorem c6_empty_feature_list_returns_zero :
    ∀ (phen : DataFrame String) (subject_i subject_j : String),
      custom_similarity_function [] phen subject_i subject_j = 0 := by
  intro phen subject_i subject_j
  rfl

/-- C7: for the subject index [A, B, C, D] with single-attribute sex
similarity, sex(A) = sex(B) = sex(C) = "M", sex(D) = "F" and threshold 1/2,
edge construction yields exactly the directed pairs
(0,1), (1,0), (0,2), (2,0), (1,2), (2,1) and node 3 (subject D) has no
incident edges. -/
theorem c7_sex_similarity_scenario :
    construct_edge_list phenABCD get_similarity (1 / 2)
        = ([0, 1, 0, 2, 1, 2], [1, 0, 2, 0, 2, 1]) ∧
    ((construct_edge_list phenABCD get_similarity (1 / 2)).1).zip
        ((construct_edge_list phenABCD get_similarity (1 / 2)).2)
        = [(0, 1), (1, 0), (0, 2), (2, 0), (1, 2), (2, 1)] ∧
    3 ∉ (construct_edge_list phenABCD get_similarity (1 / 2)).1 ∧
    3 ∉ (construct_edge_list phenABCD get_similarity (1 / 2)).2 := by
  have h : construct_edge_list phenABCD get_similarity (1 / 2)
      = ([0, 1, 0, 2, 1, 2], [1, 0, 2, 0, 2, 1]) := by
    simp [construct_edge_list, edge_pairs, get_similarity, phenABCD, SEX_UID,
      List.range_succ]
    norm_num
  refine ⟨h, ?_, ?_, ?_⟩ <;> rw [h] <;> decide

/-- C8: edge construction is deterministic.  Two invocations of
`construct_edge_list` on phenotype tables with the same subject index, with
similarity functions that agree on every subject pair, and with equal
thresholds, produce identical edge lists, entry order included. -/
theorem c8_edge_list_deterministic
    (phen₁ phen₂ : DataFrame String)
    (sim₁ sim₂ : DataFrame String → String → String → ℚ) (θ₁ θ₂ : ℚ)
    (hidx : phen₁.index = phen₂.index)
    (hsim : ∀ a b : String, sim₁ phen₁ a b = sim₂ phen₂ a b)
    (hθ : θ₁ = θ₂) :
    construct_edge_list phen₁ sim₁ θ₁ = construct_edge_list phen₂ sim₂ θ₂ := by
  have hf : sim₁ phen₁ = sim₂ phen₂ := funext fun a => funext fun b => hsim a b
  simp only [construct_edge_list]
  rw [hidx, hf, hθ]


/-- Witness for C8: two tables with identical index and identical similarity
values (they differ only in a column the similarity never reads) produce
identical edge lists. -/
theorem c8_edge_list_deterministic_witness :
    construct_edge_list phenDetA get_similarity 0
      = construct_edge_list phenDetB get_similarity 0 :=
  c8_edge_list_deterministic phenDetA phenDetB get_similarity get_similarity 0 0
    rfl
    (by intro a b; simp [get_similarity, phenDetA, phenDetB, SEX_UID])
    rfl


/-- C5: the claim states that both subjects' values are resolved by the same
rule (last non-missing instance, scanning codes in reverse declared order).
The source applies that rule to subject_i but the inverted condition
`not ... != 'NaN'` to subject_j, so subject_j resolves to the last MISSING
instance (defaulting to the first code).  On `phenLong`, where both subjects
carry the recent value "M", the source compares subject_i's recent value "M"
with subject_j's oldest value "B" and returns similarity 0, while the
specified same-rule resolution returns indicator 1. -/
theorem c5_longitudinal_resolution_inverted :
    custom_similarity_function [ageLongFeature] phenLong "i" "j" = 0 ∧
    feature_score_specRule phenLong "i" "j" ageLongFeature = 1 ∧
    findInstance ageLongFeature.codes
        (fun f => phenLong.loc "i" f != "NaN") = "21003-2.0" ∧
    findInstance ageLongFeature.codes
        (fun f => !(phenLong.loc "j" f != "NaN")) = "21003-0.0" := by
  refine ⟨?_, ?_, ?_, ?_⟩
  · simp [custom_similarity_function, feature_score, ageLongFeature, phenLong,
      findInstance]
  · simp [feature_score_specRule, ageLongFeature, phenLong, findInstance]
  · simp [findInstance, ageLongFeature, phenLong]
  · simp [findInstance, ageLongFeature, phenLong]

/-- Counterexample for C9: graph assembly does not fail on dimensionally
inconsistent inputs.  With a 3-row feature matrix, a 1-element label vector,
length-1 masks and an edge index referring to node 5, the assembly still
returns a Population Graph record, keeping all the inconsistent components. -/
theorem c9_no_shape_validation_counterexample :
    (assemble_population_graph [[1], [2], [3]] ([5], [0]) [10]
        [true] [false] [false]).x.length = 3 ∧
    (assemble_population_graph [[1], [2], [3]] ([5], [0]) [10]
        [true] [false] [false]).y.length = 1 ∧
    (assemble_population_graph [[1], [2], [3]] ([5], [0]) [10]
        [true] [false] [false]).train_mask.length = 1 ∧
    (assemble_population_graph [[1], [2], [3]] ([5], [0]) [10]
        [true] [false] [false]).edge_index.1 = [5] ∧
    ¬(5 < 3) := by
  refine ⟨rfl, rfl, rfl, rfl, by omega⟩

/-- C9 (amended): graph assembly performs no dimensional-consistency
validation; for every combination of feature matrix, edge index, label
vector and masks — consistent or not — it returns the Population Graph record
holding exactly the supplied components, truncating and padding nothing. -/
theorem c9_assembly_passes_components_through :
    ∀ (feature_tensor : List (List ℚ)) (edge_index : List ℕ × List ℕ)
      (label_tensor : List ℚ) (train_mask validate_mask test_mask : List Bool),
      (assemble_population_graph feature_tensor edge_index label_tensor
          train_mask validate_mask test_mask).x = feature_tensor ∧
      (assemble_population_graph feature_tensor edge_index label_tensor
          train_mask validate_mask test_mask).edge_index = edge_index ∧
      (assemble_population_graph feature_tensor edge_index label_tensor
          train_mask validate_mask test_mask).y = label_tensor ∧
      (assemble_population_graph feature_tensor edge_index label_tensor
          train_mask validate_mask test_mask).train_mask = train_mask ∧
      (assemble_population_graph feature_tensor edge_index label_tensor
          train_mask validate_mask test_mask).validate_mask = validate_mask ∧
      (assemble_population_graph feature_tensor edge_index label_tensor
          train_mask validate_mask test_mask).test_mask = test_mask := by
  intro f e l tm vm sm
  exact ⟨rfl, rfl, rfl, rfl, rfl, rfl⟩

/-- C10: `get_subject_ids` treats a requested count of 0 like an unspecified
count — for `None` and for 0 it returns the whole stored subject-ID list —
and only for a positive count does it return a selection of that size (of the
random choice when randomising, of the stored head otherwise). -/
theorem c10_zero_count_returns_all :
    ∀ (stored : List String) (choice : List String → ℕ → List String)
      (randomise : Bool),
      get_subject_ids stored choice none randomise = stored ∧
      get_subject_ids stored choice (some 0) randomise = stored ∧
      (∀ n : ℕ, 0 < n → (choice stored n).length = n → n ≤ stored.length →
        (get_subject_ids stored choice (some n) true).length = n ∧
        (get_subject_ids stored choice (some n) false).length = n) := by
  intro stored choice randomise
  refine ⟨rfl, rfl, fun n hn hlen hle => ⟨?_, ?_⟩⟩
  · simp [get_subject_ids, Nat.pos_iff_ne_zero.mp hn, hlen]
  · simp [get_subject_ids, Nat.pos_iff_ne_zero.mp hn, List.length_take,
      Nat.min_eq_left hle]

/-- Witness for C10: with three stored IDs and take-based selection, `None`
and 0 both return all three IDs, and a requested count of 2 returns exactly
2. -/
theorem c10_zero_count_returns_all_witness :
    get_subject_ids ["a", "b", "c"] (fun l k => l.take k) none true
        = ["a", "b", "c"] ∧
    get_subject_ids ["a", "b", "c"] (fun l k => l.take k) (some 0) true
        = ["a", "b", "c"] ∧
    (get_subject_ids ["a", "b", "c"] (fun l k => l.take k) (some 2) true).length
        = 2 ∧
    (get_subject_ids ["a", "b", "c"] (fun l k => l.take k) (some 2) false).length
        = 2 := by
  have h := c10_zero_count_returns_all ["a", "b", "c"] (fun l k => l.take k) true
  exact ⟨h.1, h.2.1, (h.2.2 2 (by omega) (by decide) (by decide)).1,
    (h.2.2 2 (by omega) (by decide) (by decide)).2⟩


/-- Rows selected by a boolean mask depend only on the masked positions: two
data lists of mask length that agree wherever the mask is True select the same
rows. -/
theorem selectRows_congr {α : Type} [Inhabited α] :
    ∀ (m : List Bool) (d₁ d₂ : List α),
      d₁.length = m.length → d₂.length = m.length →
      (∀ i, i < m.length → m.getD i false = true →
        d₁.getD i default = d₂.getD i default) →
      selectRows d₁ m = selectRows d₂ m := by
  intro m
  induction m with
  | nil =>
    intro d₁ d₂ h₁ h₂ _
    rw [List.length_nil, List.length_eq_zero] at h₁ h₂
    rw [h₁, h₂]
  | cons b bs ih =>
    intro d₁ d₂ h₁ h₂ hag
    match d₁, d₂ with
    | [], _ => simp at h₁
    | _ :: _, [] => simp at h₂
    | x :: xs, y :: ys =>
      have hrest : selectRows xs bs = selectRows ys bs := by
        refine ih xs ys (by simpa using h₁) (by simpa using h₂) ?_
        intro i hi hm
        have := hag (i + 1) (by simpa using hi) (by simpa using hm)
        simpa using this
      cases b with
      | false => simp [selectRows, hrest]
      | true =>
        have hx : x = y := by
          have := hag 0 (by simp) (by simp)
          simpa using this
        simp [selectRows, hrest, hx]

/-- C1: the scaling and PCA transform parameters computed by the pipeline are
a function of the training rows only.  For a fixed training mask, two data
matrices of mask length that agree on every row where the mask is True yield
identical fitted standard-scaler parameters (per-column mean and variance) and
identical fitted PCA parameters for every deterministic fitting procedure; and
the fitted PCA transform is applied to all rows (the output has one row per
input row). -/
theorem c1_transform_parameters_fit_on_train_rows_only
    (train_mask : List Bool) (d₁ d₂ : List (List ℚ))
    (h₁ : d₁.length = train_mask.length) (h₂ : d₂.length = train_mask.length)
    (hag : ∀ i, i < train_mask.length → train_mask.getD i false = true →
      d₁.getD i default = d₂.getD i default) :
    block_scaler_fit d₁ train_mask = block_scaler_fit d₂ train_mask ∧
    (∀ (P : Type) (fit : List (List ℚ) → P),
      pca_fitted_params fit d₁ train_mask = pca_fitted_params fit d₂ train_mask) ∧
    (∀ (P : Type) (fit : List (List ℚ) → P) (transform : P → List ℚ → List ℚ),
      (functional_connectivities_pca fit transform d₁ train_mask).length
        = d₁.length) := by
  have hsel : selectRows d₁ train_mask = selectRows d₂ train_mask :=
    selectRows_congr train_mask d₁ d₂ h₁ h₂ hag
  refine ⟨?_, fun P fit => ?_, fun P fit transform => ?_⟩
  · unfold block_scaler_fit
    rw [hsel]
  · unfold pca_fitted_params
    rw [hsel]
  · unfold functional_connectivities_pca
    exact List.length_map _ _

/-- Witness for C1: two concrete 2-row data matrices sharing the single
training row but differing in the held-out row produce identical fitted
scaler parameters and identical fitted PCA parameters. -/
theorem c1_transform_parameters_witness :
    block_scaler_fit [[1, 2], [3, 4]] [true, false]
        = block_scaler_fit [[1, 2], [9, 9]] [true, false] ∧
    pca_fitted_params id [[1, 2], [3, 4]] [true, false]
        = pca_fitted_params id [[1, 2], [9, 9]] [true, false] := by
  have h := c1_transform_parameters_fit_on_train_rows_only
    [true, false] [[1, 2], [3, 4]] [[1, 2], [9, 9]]
    (by decide) (by decide) (by decide)
  exact ⟨h.1, h.2.1 (List (List ℚ)) id⟩


/-- Length of the list-based set difference used by `get_random_subject_split`:
removing the members of a duplicate-free sublist from a duplicate-free list
removes exactly that many elements. -/
theorem length_filter_not_mem {l sub : List ℕ} (hl : l.Nodup) (hsub : sub.Nodup)
    (hss : ∀ x ∈ sub, x ∈ l) :
    (l.filter (fun x => decide (x ∉ sub))).length = l.length - sub.length := by
  classical
  have hf : (l.filter (fun x => decide (x ∉ sub))).Nodup := hl.filter _
  have h1 : (l.filter (fun x => decide (x ∉ sub))).toFinset
      = l.toFinset \ sub.toFinset := by
    ext x
    simp [List.mem_toFinset, List.mem_filter]
  have h2 : sub.toFinset ⊆ l.toFinset := by
    intro x hx
    rw [List.mem_toFinset] at hx ⊢
    exact hss x hx
  rw [← List.toFinset_card_of_nodup hf, h1, Finset.card_sdiff h2,
    List.toFinset_card_of_nodup hl, List.toFinset_card_of_nodup hsub]

/-- Reading position `i < n` of a mask built by mapping over `List.range n`
gives the mapped value at `i`. -/
theorem getD_map_range {f : ℕ → Bool} {n i : ℕ} (h : i < n) :
    ((List.range n).map f).getD i false = f i := by
  rw [List.getD_eq_getElem?_getD, List.getElem?_map, List.getElem?_range h]
  rfl


/-- C4: for every subject count and every sampling function obeying numpy's
contract for drawing without replacement (so in particular for every seed),
the random split returns three pairwise-disjoint index lists of sizes
floor(0.85 n), floor(0.05 n) and the remainder, whose members are exactly the
indices below n; and the boolean masks derived from them mark each index
below n as True in exactly one mask. -/
theorem c4_random_split_invariants
    (choice : List ℕ → ℕ → List ℕ) (n : ℕ)
    (hchoice : ∀ (pop : List ℕ) (k : ℕ), pop.Nodup → k ≤ pop.length →
      (choice pop k).length = k ∧ (choice pop k).Nodup ∧
      ∀ x ∈ choice pop k, x ∈ pop) :
    ((get_random_subject_split choice n).1.length = n * 85 / 100 ∧
     (get_random_subject_split choice n).2.1.length = n * 5 / 100 ∧
     (get_random_subject_split choice n).2.2.length
        = n - n * 85 / 100 - n * 5 / 100) ∧
    (∀ x : ℕ,
      ¬(x ∈ (get_random_subject_split choice n).1 ∧
          x ∈ (get_random_subject_split choice n).2.1) ∧
      ¬(x ∈ (get_random_subject_split choice n).1 ∧
          x ∈ (get_random_subject_split choice n).2.2) ∧
      ¬(x ∈ (get_random_subject_split choice n).2.1 ∧
          x ∈ (get_random_subject_split choice n).2.2)) ∧
    (∀ x : ℕ,
      (x ∈ (get_random_subject_split choice n).1 ∨
       x ∈ (get_random_subject_split choice n).2.1 ∨
       x ∈ (get_random_subject_split choice n).2.2) ↔ x < n) ∧
    (∀ i, i < n →
      (((get_subject_split_masks (get_random_subject_split choice n).1
          (get_random_subject_split choice n).2.1
          (get_random_subject_split choice n).2.2).1.getD i false).toNat +
       ((get_subject_split_masks (get_random_subject_split choice n).1
          (get_random_subject_split choice n).2.1
          (get_random_subject_split choice n).2.2).2.1.getD i false).toNat +
       ((get_subject_split_masks (get_random_subject_split choice n).1
          (get_random_subject_split choice n).2.1
          (get_random_subject_split choice n).2.2).2.2.getD i false).toNat)
        = 1) := by
  have htv : n * 85 / 100 + n * 5 / 100 ≤ n := by
    have h85 := Nat.div_mul_le_self (n * 85) 100
    have h5 := Nat.div_mul_le_self (n * 5) 100
    omega
  obtain ⟨hpool_len, hpool_nd, hpool_mem⟩ :=
    hchoice (List.range n) (n * 85 / 100 + n * 5 / 100) (List.nodup_range n)
      (by rw [List.length_range]; exact htv)
  obtain ⟨htr_len, htr_nd, htr_mem⟩ :=
    hchoice (choice (List.range n) (n * 85 / 100 + n * 5 / 100)) (n * 85 / 100)
      hpool_nd (by rw [hpool_len]; omega)
  have hsplit : get_random_subject_split choice n
      = (choice (choice (List.range n) (n * 85 / 100 + n * 5 / 100)) (n * 85 / 100),
         (choice (List.range n) (n * 85 / 100 + n * 5 / 100)).filter
           (fun x => decide (x ∉ choice (choice (List.range n)
             (n * 85 / 100 + n * 5 / 100)) (n * 85 / 100))),
         (List.range n).filter
           (fun x => decide (x ∉ choice (List.range n)
             (n * 85 / 100 + n * 5 / 100)))) := rfl
  set pool := choice (List.range n) (n * 85 / 100 + n * 5 / 100) with hpool_def
  set tr := choice pool (n * 85 / 100) with htr_def
  have hpool_lt : ∀ x ∈ pool, x < n := fun x hx => List.mem_range.mp (hpool_mem x hx)
  have hva_len : (pool.filter (fun x => decide (x ∉ tr))).length = n * 5 / 100 := by
    rw [length_filter_not_mem hpool_nd htr_nd htr_mem, hpool_len, htr_len]
    omega
  have hte_len : ((List.range n).filter (fun x => decide (x ∉ pool))).length
      = n - n * 85 / 100 - n * 5 / 100 := by
    rw [length_filter_not_mem (List.nodup_range n) hpool_nd hpool_mem,
      List.length_range, hpool_len]
    omega
  have hva_mem : ∀ x, x ∈ pool.filter (fun x => decide (x ∉ tr)) ↔
      (x ∈ pool ∧ x ∉ tr) := by
    intro x
    simp [List.mem_filter]
  have hte_mem : ∀ x, x ∈ (List.range n).filter (fun x => decide (x ∉ pool)) ↔
      (x < n ∧ x ∉ pool) := by
    intro x
    simp [List.mem_filter, List.mem_range]
  rw [hsplit]
  simp only
  refine ⟨⟨htr_len, hva_len, hte_len⟩, fun x => ?_, fun x => ?_, fun i hi => ?_⟩
  · refine ⟨?_, ?_, ?_⟩
    · rintro ⟨hxt, hxv⟩
      exact ((hva_mem x).mp hxv).2 hxt
    · rintro ⟨hxt, hxe⟩
      exact ((hte_mem x).mp hxe).2 (htr_mem x hxt)
    · rintro ⟨hxv, hxe⟩
      exact ((hte_mem x).mp hxe).2 ((hva_mem x).mp hxv).1
  · constructor
    · rintro (hxt | hxv | hxe)
      · exact hpool_lt x (htr_mem x hxt)
      · exact hpool_lt x ((hva_mem x).mp hxv).1
      · exact ((hte_mem x).mp hxe).1
    · intro hx
      by_cases hp : x ∈ pool
      · by_cases ht : x ∈ tr
        · exact Or.inl ht
        · exact Or.inr (Or.inl ((hva_mem x).mpr ⟨hp, ht⟩))
      · exact Or.inr (Or.inr ((hte_mem x).mpr ⟨hx, hp⟩))
  · have hsum : tr.length + (pool.filter (fun x => decide (x ∉ tr))).length +
        ((List.range n).filter (fun x => decide (x ∉ pool))).length = n := by
      rw [htr_len, hva_len, hte_len]
      omega
    simp only [get_subject_split_masks]
    rw [hsum]
    rw [getD_map_range hi, getD_map_range hi, getD_map_range hi]
    by_cases hp : i ∈ pool
    · by_cases ht : i ∈ tr
      · have h1 : i ∉ pool.filter (fun x => decide (x ∉ tr)) := fun hc =>
          ((hva_mem i).mp hc).2 ht
        have h2 : i ∉ (List.range n).filter (fun x => decide (x ∉ pool)) :=
          fun hc => ((hte_mem i).mp hc).2 hp
        rw [decide_eq_true ht, decide_eq_false h1, decide_eq_false h2]
        rfl
      · have h1 : i ∈ pool.filter (fun x => decide (x ∉ tr)) :=
          (hva_mem i).mpr ⟨hp, ht⟩
        have h2 : i ∉ (List.range n).filter (fun x => decide (x ∉ pool)) :=
          fun hc => ((hte_mem i).mp hc).2 hp
        rw [decide_eq_false ht, decide_eq_true h1, decide_eq_false h2]
        rfl
    · have ht : i ∉ tr := fun hc => hp (htr_mem i hc)
      have h1 : i ∉ pool.filter (fun x => decide (x ∉ tr)) := fun hc =>
        hp ((hva_mem i).mp hc).1
      have h2 : i ∈ (List.range n).filter (fun x => decide (x ∉ pool)) :=
        (hte_mem i).mpr ⟨hi, hp⟩
      rw [decide_eq_false ht, decide_eq_false h1, decide_eq_true h2]
      rfl


/-- Witness for C4: instantiating the sampling function with take-first
selection at n = 100 gives sizes 85, 5 and 10, union equal to all indices
below 100, and each such index True in exactly one derived mask. -/
theorem c4_random_split_invariants_witness :
    (get_random_subject_split (fun l k => l.take k) 100).1.length = 85 ∧
    (get_random_subject_split (fun l k => l.take k) 100).2.1.length = 5 ∧
    (get_random_subject_split (fun l k => l.take k) 100).2.2.length = 10 ∧
    (∀ x : ℕ,
      (x ∈ (get_random_subject_split (fun l k => l.take k) 100).1 ∨
       x ∈ (get_random_subject_split (fun l k => l.take k) 100).2.1 ∨
       x ∈ (get_random_subject_split (fun l k => l.take k) 100).2.2) ↔ x < 100) ∧
    (∀ i, i < 100 →
      (((get_subject_split_masks (get_random_subject_split (fun l k => l.take k) 100).1
          (get_random_subject_split (fun l k => l.take k) 100).2.1
          (get_random_subject_split (fun l k => l.take k) 100).2.2).1.getD i false).toNat +
       ((get_subject_split_masks (get_random_subject_split (fun l k => l.take k) 100).1
          (get_random_subject_split (fun l k => l.take k) 100).2.1
          (get_random_subject_split (fun l k => l.take k) 100).2.2).2.1.getD i false).toNat +
       ((get_subject_split_masks (get_random_subject_split (fun l k => l.take k) 100).1
          (get_random_subject_split (fun l k => l.take k) 100).2.1
          (get_random_subject_split (fun l k => l.take k) 100).2.2).2.2.getD i false).toNat)
        = 1) := by
  have hswor : ∀ (pop : List ℕ) (k : ℕ), pop.Nodup → k ≤ pop.length →
      ((fun (l : List ℕ) (k : ℕ) => l.take k) pop k).length = k ∧
      ((fun (l : List ℕ) (k : ℕ) => l.take k) pop k).Nodup ∧
      ∀ x ∈ (fun (l : List ℕ) (k : ℕ) => l.take k) pop k, x ∈ pop := by
    intro pop k hnd hk
    refine ⟨?_, List.Nodup.sublist (List.take_sublist _ _) hnd,
      fun x hx => (List.take_sublist _ _).subset hx⟩
    rw [List.length_take]
    exact Nat.min_eq_left hk
  have h := c4_random_split_invariants (fun l k => l.take k) 100 hswor
  exact ⟨h.1.1, h.1.2.1, h.1.2.2, h.2.2.1, h.2.2.2⟩

end BrainAgeGNN
